import Mathlib

/-!
Verification of the F1 tire-strategy domain logic.

This file shallowly embeds the domain logic of the repository:
`src/data_generation.py` (compound registry, telemetry generator, strategy
rule engine, derived-feature computation) and `src/test_predictions.py`
(serving-time derived features, reverse-engineering inference).

Modelling conventions:
- Python floats are embedded as `ℚ`; Python ints as `ℤ`; `int(x)` is
  truncation toward zero (`pyInt`); `round(x, 1)` is round-half-even at one
  decimal (`pyRound1`), the idealized decimal semantics of Python's `round`.
- The two seeded global pseudo-random streams (`random` and `np.random`,
  both re-seeded by `F1TireDataGenerator.__init__`) are modelled as one
  explicit stream of draws in `[0, 1)`, consumed in program order and
  threaded through the computation as an `Rng` state; `uniform(a, b)` maps a
  draw `u` to `a + u * (b - a)`, and `random.choices` with weights maps a
  draw to cumulative-weight selection.
- Python dict lookups that can raise `KeyError` are embedded as `Option`
  lookups; `dict.get` with a default is embedded as a total function.
-/

/-- Python `int(x)` on a float: truncation toward zero. -/
def pyInt (q : ℚ) : ℤ :=
  if 0 ≤ q then ⌊q⌋ else ⌈q⌉

/-- Round to the nearest integer, ties to even (Python `round` semantics). -/
def roundHalfEven (q : ℚ) : ℤ :=
  if q - ⌊q⌋ < 1/2 then ⌊q⌋
  else if q - ⌊q⌋ > 1/2 then ⌊q⌋ + 1
  else if ⌊q⌋ % 2 = 0 then ⌊q⌋ else ⌊q⌋ + 1

/-- Python `round(x, 1)`: round-half-even at one decimal place. -/
def pyRound1 (q : ℚ) : ℚ :=
  (roundHalfEven (q * 10) : ℚ) / 10

/-- A rational carries at most one decimal place. -/
def oneDecimal (q : ℚ) : Prop :=
  ∃ k : ℤ, q = (k : ℚ) / 10

/-- Explicit pseudo-random state: a stream of draws in `[0,1)` plus the
position of the next draw.  The seeded Mersenne-Twister streams of the
source are modelled by the stream function itself. -/
structure Rng where
  stream : ℕ → ℚ
  pos : ℕ

/-- Consume one draw from the stream. -/
def Rng.next (g : Rng) : ℚ × Rng :=
  (g.stream g.pos, { g with pos := g.pos + 1 })

/-- `uniform(a, b)` applied to one draw `u`: `a + u * (b - a)`. -/
def uniformOf (a b u : ℚ) : ℚ :=
  a + u * (b - a)

/-- Cumulative-weight selection used by `random.choices`: walk the items,
subtracting weights from the scaled draw until it falls inside a band. -/
def pickWeighted : List String → List ℚ → ℚ → String
  | [], _, _ => ""
  | [i], _, _ => i
  | i :: is, w :: ws, x => if x < w then i else pickWeighted is ws (x - w)
  | i :: _ :: _, [], _ => i

/-- `random.choices(items, weights=ws)[0]`: one draw, scaled by the total
weight, then cumulative selection. -/
def choices (items : List String) (weights : List ℚ) (g : Rng) : String × Rng :=
  let u := g.next
  (pickWeighted items weights (u.1 * (weights.foldl (· + ·) 0)), u.2)

/-- Per-compound physical parameters (`F1TireDataGenerator.__init__`). -/
structure CompoundInfo where
  color : String
  expected_life : ℤ
  optimal_temp_range : ℤ × ℤ
  degradation_rate : ℚ
  pressure_range : ℚ × ℚ
  graining_susceptibility : ℚ
deriving DecidableEq, Repr

/-- The compound registry `self.compounds` of `data_generation.py`; lookup
of an unknown key raises `KeyError` in Python, embedded as `none`. -/
def compounds (c : String) : Option CompoundInfo :=
  if c = "soft" then
    some ⟨"red", 22, (95, 105), 1.8, (19.5, 21.0), 0.7⟩
  else if c = "medium" then
    some ⟨"yellow", 32, (100, 110), 1.2, (19.0, 21.5), 0.4⟩
  else if c = "hard" then
    some ⟨"white", 45, (105, 115), 0.8, (18.5, 21.0), 0.3⟩
  else if c = "intermediate" then
    some ⟨"green", 15, (85, 95), 2.0, (18.0, 20.0), 0.5⟩
  else if c = "wet" then
    some ⟨"blue", 10, (75, 85), 2.5, (17.5, 19.5), 0.3⟩
  else none

/-- The wear-pattern vocabulary `self.wear_patterns`. -/
def wear_patterns : List String :=
  ["even", "inner", "outer", "center", "uneven"]

/-- A complete raw tire state: the eight input fields of the data model. -/
structure TireState where
  compound : String
  lap_number : ℤ
  wear_pattern : String
  sidewall_deformation : Bool
  tyre_pressure : ℚ
  is_graining : Bool
  tyre_temperature : ℤ
  track_temperature : ℤ
deriving DecidableEq, Repr

/-- `F1TireDataGenerator._determine_strategy`: the precedence-ordered rule
cascade, translated clause by clause from lines 201-254 of
`data_generation.py`. -/
def determine_strategy (compound : String) (lap_num expected_life : ℤ)
    (wear_pattern : String) (deformation : Bool) (pressure : ℚ)
    (graining : Bool) (tyre_temp track_temp opt_temp_min opt_temp_max : ℤ) :
    String :=
  let wear_percentage : ℚ := (lap_num : ℚ) / (expected_life : ℚ)
  if deformation then "PIT_NOW"
  else if pressure < 17 ∨ pressure > 24 then "PIT_NOW"
  else if wear_percentage ≥ 1 then "PIT_NOW"
  else if wear_pattern = "uneven" ∧ wear_percentage > 0.80 then "PIT_NOW"
  else if wear_percentage ≥ 0.85 then "PIT_SOON"
  else if tyre_temp > opt_temp_max + 15 then "PIT_SOON"
  else if graining ∧ compound = "soft" ∧ lap_num > 15 then "PIT_SOON"
  else if (wear_pattern = "center" ∨ wear_pattern = "inner" ∨
      wear_pattern = "outer") ∧ wear_percentage > 0.75 then "PIT_SOON"
  else if wear_percentage < 0.60 ∧ wear_pattern = "even" ∧
      opt_temp_min ≤ tyre_temp ∧ tyre_temp ≤ opt_temp_max ∧
      ¬graining ∧ 19 ≤ pressure ∧ pressure ≤ 21.5 then "PUSH"
  else if wear_percentage > 0.70 ∧ wear_percentage < 0.85 then "CONSERVE"
  else if track_temp > 40 then "CONSERVE"
  else if graining ∧ lap_num < 12 then "CONSERVE"
  else "MONITOR"

/-- The rule engine applied to a complete `TireState`, with `expected_life`
and the optimal temperature range obtained from the registry exactly as in
`_generate_sample` (lines 93-94, 123, 182-186); an unknown compound fails
the registry lookup. -/
def strategy_of (t : TireState) : Option String :=
  (compounds t.compound).map fun info =>
    determine_strategy t.compound t.lap_number info.expected_life
      t.wear_pattern t.sidewall_deformation t.tyre_pressure t.is_graining
      t.tyre_temperature t.track_temperature
      info.optimal_temp_range.1 info.optimal_temp_range.2

/-- A dataset row: the raw fields produced by `_generate_sample` plus the
derived columns attached by `_add_derived_features` (absent columns are
`none`, matching missing/NaN cells). -/
structure Record extends TireState where
  color : String := ""
  strategy : String := ""
  scenario_name : String := ""
  expected_life : Option ℤ := none
  lap_percentage : Option ℚ := none
  temp_differential : Option ℤ := none
  is_pressure_optimal : Option Bool := none
  is_temp_optimal : Option Bool := none
  wear_severity : Option ℤ := none
  risk_score : Option ℚ := none
deriving DecidableEq, Repr

/-- `compound_life_map` of `_add_derived_features` (line 261): derived from
the registry; an unknown compound maps to a missing value. -/
def compound_life_map_gen (c : String) : Option ℤ :=
  (compounds c).map (·.expected_life)

/-- `wear_severity_map` of `_add_derived_features` (lines 277-283); an
unknown wear pattern maps to a missing value (pandas NaN). -/
def wear_severity_map_gen (w : String) : Option ℤ :=
  if w = "even" then some 0
  else if w = "inner" then some 2
  else if w = "outer" then some 2
  else if w = "center" then some 3
  else if w = "uneven" then some 4
  else none

/-- `F1TireDataGenerator._add_derived_features` applied to one row (all the
pandas column operations of lines 256-296 are elementwise; NaN propagation
into `risk_score` is the `Option` bind). -/
def add_derived_features (r : Record) : Record :=
  let expected_life := compound_life_map_gen r.compound
  let lap_percentage := expected_life.map fun el => (r.lap_number : ℚ) / (el : ℚ)
  let wear_severity := wear_severity_map_gen r.wear_pattern
  let is_pressure_optimal := decide (19 ≤ r.tyre_pressure ∧ r.tyre_pressure ≤ 21.5)
  let is_temp_optimal := decide (95 ≤ r.tyre_temperature ∧ r.tyre_temperature ≤ 115)
  { r with
    expected_life := expected_life
    lap_percentage := lap_percentage
    temp_differential := some (r.tyre_temperature - r.track_temperature)
    is_pressure_optimal := some is_pressure_optimal
    is_temp_optimal := some is_temp_optimal
    wear_severity := wear_severity
    risk_score := do
      let lp ← lap_percentage
      let ws ← wear_severity
      pure (lp * 40 + (ws : ℚ) * 10 +
        (if r.sidewall_deformation then 1 else 0) * 50 +
        (if r.is_graining then 1 else 0) * 15 +
        (if is_pressure_optimal then 0 else 1) * 10 +
        (if is_temp_optimal then 0 else 1) * 5) }

/-- The derived feature vector computed at serving time by
`predict_strategy` in `test_predictions.py`. -/
structure DerivedFeatures where
  expected_life : ℤ
  lap_percentage : ℚ
  temp_differential : ℤ
  is_pressure_optimal : Bool
  is_temp_optimal : Bool
  wear_severity : ℤ
  risk_score : ℚ
deriving DecidableEq, Repr

/-- `compound_life_map` of `predict_strategy` (`test_predictions.py` line
42): a literal dict, indexed with `[]`, so an unknown compound raises
`KeyError` (`none`). -/
def compound_life_map_tp (c : String) : Option ℤ :=
  if c = "soft" then some 22
  else if c = "medium" then some 32
  else if c = "hard" then some 45
  else if c = "intermediate" then some 15
  else if c = "wet" then some 10
  else none

/-- `wear_severity_map` of `predict_strategy` (line 49), indexed with `[]`. -/
def wear_severity_map_tp (w : String) : Option ℤ :=
  if w = "even" then some 0
  else if w = "inner" then some 2
  else if w = "outer" then some 2
  else if w = "center" then some 3
  else if w = "uneven" then some 4
  else none

/-- The derived features computed by `predict_strategy` (lines 41-59) on a
single record at serving time. -/
def serving_derived (t : TireState) : Option DerivedFeatures := do
  let expected_life ← compound_life_map_tp t.compound
  let lap_percentage : ℚ := (t.lap_number : ℚ) / (expected_life : ℚ)
  let temp_differential := t.tyre_temperature - t.track_temperature
  let is_pressure_optimal := decide (19 ≤ t.tyre_pressure ∧ t.tyre_pressure ≤ 21.5)
  let is_temp_optimal := decide (95 ≤ t.tyre_temperature ∧ t.tyre_temperature ≤ 115)
  let wear_severity ← wear_severity_map_tp t.wear_pattern
  let risk_score := lap_percentage * 40 + (wear_severity : ℚ) * 10 +
    (if t.sidewall_deformation then 1 else 0) * 50 +
    (if t.is_graining then 1 else 0) * 15 +
    (if is_pressure_optimal then 0 else 1) * 10 +
    (if is_temp_optimal then 0 else 1) * 5
  pure ⟨expected_life, lap_percentage, temp_differential, is_pressure_optimal,
    is_temp_optimal, wear_severity, risk_score⟩

/-- The same feature vector read off the batch path: run
`_add_derived_features` on the row and collect the derived columns. -/
def batch_derived (t : TireState) : Option DerivedFeatures :=
  let r := add_derived_features { toTireState := t }
  do
    let el ← r.expected_life
    let lp ← r.lap_percentage
    let td ← r.temp_differential
    let po ← r.is_pressure_optimal
    let to_ ← r.is_temp_optimal
    let ws ← r.wear_severity
    let rs ← r.risk_score
    pure ⟨el, lp, td, po, to_, ws, rs⟩

/-- The six curated rows of `generate_edge_cases` (lines 298-390), with
their hard-coded `strategy` labels. -/
def edge_cases : List Record :=
  [{ compound := "intermediate", lap_number := 3, wear_pattern := "even",
     sidewall_deformation := false, tyre_pressure := 19.5, is_graining := false,
     tyre_temperature := 88, track_temperature := 18, color := "green",
     strategy := "MONITOR", scenario_name := "Monaco_rain_start" },
   { compound := "hard", lap_number := 42, wear_pattern := "outer",
     sidewall_deformation := false, tyre_pressure := 16.5, is_graining := false,
     tyre_temperature := 118, track_temperature := 35, color := "white",
     strategy := "PIT_NOW", scenario_name := "Silverstone_blowout_risk" },
   { compound := "medium", lap_number := 28, wear_pattern := "center",
     sidewall_deformation := false, tyre_pressure := 22.5, is_graining := false,
     tyre_temperature := 125, track_temperature := 45, color := "yellow",
     strategy := "PIT_SOON", scenario_name := "Singapore_overheating" },
   { compound := "soft", lap_number := 6, wear_pattern := "uneven",
     sidewall_deformation := false, tyre_pressure := 20.0, is_graining := true,
     tyre_temperature := 88, track_temperature := 16, color := "red",
     strategy := "CONSERVE", scenario_name := "Barcelona_cold_graining" },
   { compound := "soft", lap_number := 8, wear_pattern := "even",
     sidewall_deformation := false, tyre_pressure := 20.5, is_graining := false,
     tyre_temperature := 102, track_temperature := 28, color := "red",
     strategy := "PUSH", scenario_name := "Perfect_push_conditions" },
   { compound := "medium", lap_number := 25, wear_pattern := "even",
     sidewall_deformation := true, tyre_pressure := 20.0, is_graining := false,
     tyre_temperature := 105, track_temperature := 30, color := "yellow",
     strategy := "PIT_NOW", scenario_name := "Critical_sidewall_deformation" }]

/-- Registry lookup inside `_generate_sample`; the key is always drawn from
the registry's own key list, so the Python lookup cannot miss — the
fallback value is unreachable. -/
def compoundInfoD (c : String) : CompoundInfo :=
  (compounds c).getD ⟨"", 0, (0, 0), 0, (0, 0), 0⟩

/-- `F1TireDataGenerator._generate_sample` (lines 85-199), with the random
draws threaded in program order. -/
def generate_sample (scenario_type : String) (g0 : Rng) : Record × Rng :=
  let d1 := choices ["soft", "medium", "hard", "intermediate", "wet"]
    [0.35, 0.40, 0.20, 0.03, 0.02] g0
  let compound := d1.1
  let info := compoundInfoD compound
  let expected_life := info.expected_life
  let u2 := d1.2.next
  let lapRaw : ℚ :=
    if scenario_type = "normal" then uniformOf 1 ((expected_life : ℚ) * 0.95) u2.1
    else if scenario_type = "aggressive" then uniformOf 1 ((expected_life : ℚ) * 0.85) u2.1
    else if scenario_type = "weather" then uniformOf 1 ((expected_life : ℚ) * 0.60) u2.1
    else if scenario_type = "incident" then
      uniformOf ((expected_life : ℚ) * 0.3) ((expected_life : ℚ) * 0.70) u2.1
    else uniformOf ((expected_life : ℚ) * 0.85) ((expected_life : ℚ) * 1.15) u2.1
  let lap_number : ℤ := max 1 (pyInt lapRaw)
  let wear_percentage : ℚ := (lap_number : ℚ) / (expected_life : ℚ)
  let u3 := u2.2.next
  let track_temp : ℤ :=
    if compound = "intermediate" ∨ compound = "wet" then pyInt (uniformOf 10 25 u3.1)
    else if scenario_type = "weather" then pyInt (uniformOf 15 30 u3.1)
    else pyInt (uniformOf 20 45 u3.1)
  let u4 := u3.2.next
  let temp_offset : ℚ :=
    if wear_percentage < 0.2 then uniformOf (-10) 0 u4.1
    else if wear_percentage < 0.7 then uniformOf (-5) 5 u4.1
    else uniformOf 0 15 u4.1
  let u5 := u4.2.next
  let tyre_temp : ℤ := pyInt ((track_temp : ℚ) + uniformOf 5 15 u5.1 + temp_offset)
  let u6 := u5.2.next
  let base_pressure := uniformOf info.pressure_range.1 info.pressure_range.2 u6.1
  let u7 := u6.2.next
  let extra : ℚ × Rng :=
    if wear_percentage > 0.8 ∨ tyre_temp > info.optimal_temp_range.2 + 10 then
      let u8 := u7.2.next
      (uniformOf (-1) 0.5 u8.1, u8.2)
    else (0, u7.2)
  let pressure_variance := uniformOf (-1.5) 1.5 u7.1 + extra.1
  let tyre_pressure := pyRound1 (base_pressure + pressure_variance)
  let d9 :=
    if scenario_type = "aggressive" ∨ wear_percentage > 0.75 then
      choices wear_patterns [0.2, 0.25, 0.25, 0.15, 0.15] extra.2
    else if scenario_type = "incident" then
      choices wear_patterns [0.1, 0.2, 0.2, 0.1, 0.4] extra.2
    else
      choices wear_patterns [0.6, 0.15, 0.15, 0.05, 0.05] extra.2
  let wear_pattern := d9.1
  let gp0 := info.graining_susceptibility
  let gp1 := if lap_number < 8 ∧ track_temp < 25 then gp0 * 2.5 else gp0
  let gp2 := if tyre_temp < info.optimal_temp_range.1 then gp1 * 1.5 else gp1
  let u10 := d9.2.next
  let is_graining := decide (u10.1 < min gp2 0.95)
  let deformation_prob : ℚ :=
    if wear_percentage > 1 then 0.25
    else if wear_percentage > 0.9 then 0.08
    else if tyre_pressure < 17 ∨ tyre_pressure > 24 then 0.15
    else 0.01
  let u11 := u10.2.next
  let sidewall_deformation := decide (u11.1 < deformation_prob)
  let strategy := determine_strategy compound lap_number expected_life
    wear_pattern sidewall_deformation tyre_pressure is_graining tyre_temp
    track_temp info.optimal_temp_range.1 info.optimal_temp_range.2
  ({ compound := compound, lap_number := lap_number,
     wear_pattern := wear_pattern, sidewall_deformation := sidewall_deformation,
     tyre_pressure := tyre_pressure, is_graining := is_graining,
     tyre_temperature := tyre_temp, track_temperature := track_temp,
     color := info.color, strategy := strategy }, u11.2)

/-- The per-sample loop of `generate_dataset` (lines 73-76): draw a scenario
type, then generate the sample, `n` times. -/
def generate_loop : ℕ → Rng → List Record × Rng
  | 0, g => ([], g)
  | n + 1, g =>
    let sc := choices ["normal", "aggressive", "weather", "incident", "strategy"]
      [0.60, 0.15, 0.10, 0.10, 0.05] g
    let s := generate_sample sc.1 sc.2
    let rest := generate_loop n s.2
    (s.1 :: rest.1, rest.2)

/-- `F1TireDataGenerator.generate_dataset` (lines 61-83): generate
`n_samples` rows from the given stream state, then attach derived features. -/
def generate_dataset (n_samples : ℕ) (g : Rng) : List Record × Rng :=
  let res := generate_loop n_samples g
  (res.1.map add_derived_features, res.2)

/-- The seeded stream installed by `np.random.seed(seed)` /
`random.seed(seed)`: the Mersenne Twister is modelled by a concrete
deterministic congruential stream — any function of the seed alone gives a
faithful model of a seeded PRNG. -/
def lcgStep (x : ℕ) : ℕ :=
  (1103515245 * x + 12345) % 2147483648

/-- The draw at index `i` of the stream seeded with `seed`. -/
def seedStream (seed : ℕ) : ℕ → ℕ
  | 0 => lcgStep seed
  | i + 1 => lcgStep (seedStream seed i)

/-- `F1TireDataGenerator.__init__(seed)`: re-seeds the global random
streams, discarding whatever global stream state existed before. -/
def initGenerator (seed : ℕ) (_prior : Rng) : Rng :=
  ⟨fun i => (seedStream seed i : ℚ) / 2147483648, 0⟩

/-- One full invocation `generate(n, seed)` in a process whose global
random state is `prior`: construct `F1TireDataGenerator(seed)` (which
re-seeds) and call `generate_dataset(n)`, returning the rows. -/
def generate (n seed : ℕ) (prior : Rng) : List Record :=
  (generate_dataset n (initGenerator seed prior)).1

/-- The visually observable fields handed to `reverse_engineer_meta_data`
by the vision pipeline (`test_predictions.py` lines 98-121). -/
structure VisionData where
  compound : String
  wear_pattern : String
  sidewall_deformation : Bool
  is_graining : Bool
deriving DecidableEq, Repr

/-- The fabricated sensor fields returned by the reverse-engineering step. -/
structure SensorData where
  tyre_pressure : ℚ
  tyre_temperature : ℤ
  track_temperature : ℤ
deriving DecidableEq, Repr

/-- `compound_optimal_temps.get(compound, (100, 110))` (lines 147-157):
total, with the literal default pair. -/
def compound_optimal_temps (c : String) : ℤ × ℤ :=
  if c = "soft" then (95, 105)
  else if c = "medium" then (100, 110)
  else if c = "hard" then (105, 115)
  else if c = "intermediate" then (85, 95)
  else if c = "wet" then (75, 85)
  else (100, 110)

/-- `compound_life.get(compound, 30)` (lines 190-192): total, default 30. -/
def compound_life_re (c : String) : ℤ :=
  if c = "soft" then 22
  else if c = "medium" then 32
  else if c = "hard" then 45
  else if c = "intermediate" then 15
  else if c = "wet" then 10
  else 30

/-- Final clamp of the fabricated pressure (line 252):
`max(15.0, min(p, 25.0))`. -/
def clampPressure (q : ℚ) : ℚ :=
  max 15 (min q 25)

/-- `reverse_engineer_meta_data` (`test_predictions.py` lines 98-262), with
the `random` draws threaded in program order.  Returns the three fabricated
sensor values and the advanced stream. -/
def reverse_engineer_meta_data (data : VisionData) (lap_number : ℤ)
    (g : Rng) : SensorData × Rng :=
  let tb : ℚ × Rng :=
    if data.compound = "soft" then
      let u := g.next; (uniformOf 20 32 u.1, u.2)
    else if data.compound = "medium" then
      let u := g.next; (uniformOf 25 38 u.1, u.2)
    else if data.compound = "hard" then
      let u := g.next; (uniformOf 32 45 u.1, u.2)
    else if data.compound = "intermediate" then
      let u := g.next; (uniformOf 12 25 u.1, u.2)
    else if data.compound = "wet" then
      let u := g.next; (uniformOf 10 20 u.1, u.2)
    else (28, g)
  let uj := tb.2.next
  let track_temperature : ℤ := pyInt (tb.1 + uniformOf (-2) 2 uj.1)
  let opt := compound_optimal_temps data.compound
  let tt0 : ℚ × Rng :=
    if data.is_graining then
      let u := uj.2.next; ((opt.1 : ℚ) - uniformOf 5 15 u.1, u.2)
    else if data.wear_pattern = "even" then
      let u := uj.2.next; (uniformOf (opt.1 : ℚ) (opt.2 : ℚ) u.1, u.2)
    else if data.wear_pattern = "center" then
      let u := uj.2.next; ((opt.2 : ℚ) + uniformOf 5 15 u.1, u.2)
    else if data.wear_pattern = "inner" ∨ data.wear_pattern = "outer" then
      let u := uj.2.next; (uniformOf ((opt.1 : ℚ) + 5) ((opt.2 : ℚ) + 10) u.1, u.2)
    else if data.wear_pattern = "uneven" then
      let u := uj.2.next; (uniformOf ((opt.1 : ℚ) - 5) ((opt.2 : ℚ) + 15) u.1, u.2)
    else
      let u := uj.2.next; (uniformOf (opt.1 : ℚ) (opt.2 : ℚ) u.1, u.2)
  let wear_percentage : ℚ := (lap_number : ℚ) / (compound_life_re data.compound : ℚ)
  let wear_heat_increase := min (wear_percentage * 10) 10
  let t1 := tt0.1 + wear_heat_increase
  let t2 := if data.sidewall_deformation then max t1 ((opt.2 : ℚ) + 15) else t1
  let tyre_temperature : ℤ := pyInt t2
  let p0 : ℚ × Rng :=
    if data.wear_pattern = "even" then
      let u := tt0.2.next; (uniformOf 19.5 21.0 u.1, u.2)
    else if data.wear_pattern = "center" then
      let u := tt0.2.next; (uniformOf 21.5 23.5 u.1, u.2)
    else if data.wear_pattern = "inner" then
      let u := tt0.2.next; (uniformOf 18.5 21.5 u.1, u.2)
    else if data.wear_pattern = "outer" then
      let u := tt0.2.next; (uniformOf 18.5 21.5 u.1, u.2)
    else if data.wear_pattern = "uneven" then
      let u := tt0.2.next; (uniformOf 18.0 22.5 u.1, u.2)
    else
      let u := tt0.2.next; (uniformOf 19.0 21.5 u.1, u.2)
  let p1 : ℚ × Rng :=
    if data.sidewall_deformation then
      let r := p0.2.next
      if r.1 < 0.7 then
        let u := r.2.next; (uniformOf 15.0 17.5 u.1, u.2)
      else
        let u := r.2.next; (uniformOf 23.0 25.0 u.1, u.2)
    else p0
  let temp_pressure_effect := ((tyre_temperature : ℚ) - 100) * 0.05
  ({ tyre_pressure := clampPressure (pyRound1 (p1.1 + temp_pressure_effect)),
     tyre_temperature := tyre_temperature,
     track_temperature := track_temperature }, p1.2)

/-- Modelled from the spec (§4.4): the behaviour the spec assigns to an
unrecognized wear pattern — the wear-pattern dispatches degrade to the
default bands, tyre temperature from `uniform(optimal_min, optimal_max)`
(when not graining) and tyre pressure from `uniform(19.0, 21.5)`, with all
remaining steps (track temperature, graining and deformation handling, wear
heat, temperature-pressure coupling, rounding, clamping) unchanged. -/
def reverse_engineer_default_bands (data : VisionData) (lap_number : ℤ)
    (g : Rng) : SensorData × Rng :=
  let tb : ℚ × Rng :=
    if data.compound = "soft" then
      let u := g.next; (uniformOf 20 32 u.1, u.2)
    else if data.compound = "medium" then
      let u := g.next; (uniformOf 25 38 u.1, u.2)
    else if data.compound = "hard" then
      let u := g.next; (uniformOf 32 45 u.1, u.2)
    else if data.compound = "intermediate" then
      let u := g.next; (uniformOf 12 25 u.1, u.2)
    else if data.compound = "wet" then
      let u := g.next; (uniformOf 10 20 u.1, u.2)
    else (28, g)
  let uj := tb.2.next
  let track_temperature : ℤ := pyInt (tb.1 + uniformOf (-2) 2 uj.1)
  let opt := compound_optimal_temps data.compound
  let tt0 : ℚ × Rng :=
    if data.is_graining then
      let u := uj.2.next; ((opt.1 : ℚ) - uniformOf 5 15 u.1, u.2)
    else
      let u := uj.2.next; (uniformOf (opt.1 : ℚ) (opt.2 : ℚ) u.1, u.2)
  let wear_percentage : ℚ := (lap_number : ℚ) / (compound_life_re data.compound : ℚ)
  let wear_heat_increase := min (wear_percentage * 10) 10
  let t1 := tt0.1 + wear_heat_increase
  let t2 := if data.sidewall_deformation then max t1 ((opt.2 : ℚ) + 15) else t1
  let tyre_temperature : ℤ := pyInt t2
  let p0 : ℚ × Rng :=
    let u := tt0.2.next; (uniformOf 19.0 21.5 u.1, u.2)
  let p1 : ℚ × Rng :=
    if data.sidewall_deformation then
      let r := p0.2.next
      if r.1 < 0.7 then
        let u := r.2.next; (uniformOf 15.0 17.5 u.1, u.2)
      else
        let u := r.2.next; (uniformOf 23.0 25.0 u.1, u.2)
    else p0
  let temp_pressure_effect := ((tyre_temperature : ℚ) - 100) * 0.05
  ({ tyre_pressure := clampPressure (pyRound1 (p1.1 + temp_pressure_effect)),
     tyre_temperature := tyre_temperature,
     track_temperature := track_temperature }, p1.2)

/-- A Python value stored in the vision-record dict. -/
inductive PyVal where
  | s (v : String)
  | b (v : Bool)
  | i (v : ℤ)
  | q (v : ℚ)
deriving DecidableEq, Repr

/-- A Python dict as an insertion-ordered association list. -/
def PyDict := List (String × PyVal)

instance : DecidableEq PyDict := by
  unfold PyDict
  infer_instance

/-- `d[k]` lookup: `KeyError` on a missing key is `none`. -/
def dictGet : PyDict → String → Option PyVal
  | [], _ => none
  | (k', v) :: rest, k => if k' = k then some v else dictGet rest k

/-- The keys of a dict, in insertion order. -/
def dictKeys (d : PyDict) : List String :=
  d.map (·.1)

/-- `d[k] = v`: overwrite in place if present, append otherwise (Python
dicts preserve insertion order). -/
def dictSet : PyDict → String → PyVal → PyDict
  | [], k, v => [(k, v)]
  | (k', v') :: rest, k, v =>
    if k' = k then (k', v) :: rest else (k', v') :: dictSet rest k v

/-- `d.update(kvs)`: set each pair in order. -/
def dictUpdate (d : PyDict) (kvs : List (String × PyVal)) : PyDict :=
  kvs.foldl (fun acc kv => dictSet acc kv.1 kv.2) d

/-- The four keys written by `data.update({...})` (lines 254-260). -/
def addedKeys : List String :=
  ["lap_number", "tyre_pressure", "tyre_temperature", "track_temperature"]

/-- `reverse_engineer_meta_data` at the dict level: read the four visual
fields (a missing field or a wrongly typed one is a `KeyError`/`TypeError`,
embedded as `none`), run the computation, then `data.update({...})` and
return `data` (lines 118-121, 254-262).  Only the returned dict is kept. -/
def reverse_engineer_dict (d : PyDict) (lap_number : ℤ) (g : Rng) :
    Option PyDict :=
  match dictGet d "compound", dictGet d "wear_pattern",
      dictGet d "is_graining", dictGet d "sidewall_deformation" with
  | some (.s compound), some (.s wear_pattern),
      some (.b is_graining), some (.b sidewall_deformation) =>
    let r := reverse_engineer_meta_data
      ⟨compound, wear_pattern, sidewall_deformation, is_graining⟩ lap_number g
    some (dictUpdate d
      [("lap_number", .i lap_number),
       ("tyre_pressure", .q r.1.tyre_pressure),
       ("tyre_temperature", .i r.1.tyre_temperature),
       ("track_temperature", .i r.1.track_temperature)])
  | _, _, _, _ => none

/-- The guard of rule 4 of the cascade (line 219):
`wear_pattern == 'uneven' and wear_percentage > 0.80`. -/
def rule4_pred (wear_pattern : String) (wear_percentage : ℚ) : Bool :=
  decide (wear_pattern = "uneven" ∧ wear_percentage > 0.80)

/-- The guard of rule 9 of the cascade (lines 236-240): the PUSH predicate. -/
def rule9_pred (wear_percentage : ℚ) (wear_pattern : String)
    (tyre_temp opt_temp_min opt_temp_max : ℤ) (graining : Bool)
    (pressure : ℚ) : Bool :=
  decide (wear_percentage < 0.60 ∧ wear_pattern = "even" ∧
    opt_temp_min ≤ tyre_temp ∧ tyre_temp ≤ opt_temp_max ∧
    ¬graining = true ∧ 19 ≤ pressure ∧ pressure ≤ 21.5)

/-- Fixture (a) of `generate_edge_cases` as a raw tire state. -/
def fixture_a : TireState :=
  { compound := "intermediate", lap_number := 3, wear_pattern := "even",
    sidewall_deformation := false, tyre_pressure := 19.5, is_graining := false,
    tyre_temperature := 88, track_temperature := 18 }

/-- A record whose wear pattern lies outside the declared enum. -/
def garbage_wear_record : Record :=
  { compound := "soft", lap_number := 1, wear_pattern := "garbage",
    sidewall_deformation := false, tyre_pressure := 20, is_graining := false,
    tyre_temperature := 100, track_temperature := 30 }

/-- A concrete stream state: every draw is `0`. -/
def zeroRng : Rng :=
  ⟨fun _ => 0, 0⟩

/-- A concrete vision record with an out-of-enum wear pattern. -/
def c8_vision : VisionData :=
  ⟨"soft", "banana", false, false⟩

/-- A concrete vision dict holding exactly the five visually observed
fields. -/
def c10_input : PyDict :=
  [("color", .s "red"), ("compound", .s "soft"), ("wear_pattern", .s "even"),
   ("sidewall_deformation", .b false), ("is_graining", .b false)]

/-- The dict returned by the reverse-engineering step on `c10_input`. -/
def c10_output : PyDict :=
  (reverse_engineer_dict c10_input 5 zeroRng).getD []

/-- The first row of `generate_edge_cases`: fixture (a), `Monaco_rain_start`,
with its hard-coded label `MONITOR`. -/
def edge_record_a : Record :=
  { compound := "intermediate", lap_number := 3, wear_pattern := "even",
    sidewall_deformation := false, tyre_pressure := 19.5, is_graining := false,
    tyre_temperature := 88, track_temperature := 18, color := "green",
    strategy := "MONITOR", scenario_name := "Monaco_rain_start" }

lemma clampPressure_ge (q : ℚ) : 15 ≤ clampPressure q :=
  le_max_left _ _

lemma clampPressure_le (q : ℚ) : clampPressure q ≤ 25 :=
  max_le (by norm_num) (min_le_right _ _)

lemma oneDecimal_clampPressure_pyRound1 (q : ℚ) :
    oneDecimal (clampPressure (pyRound1 q)) := by
  unfold clampPressure pyRound1
  rcases le_total ((roundHalfEven (q * 10) : ℚ) / 10) 25 with h | h
  · rw [min_eq_left h]
    rcases le_total 15 ((roundHalfEven (q * 10) : ℚ) / 10) with h' | h'
    · rw [max_eq_right h']
      exact ⟨roundHalfEven (q * 10), rfl⟩
    · rw [max_eq_left h']
      exact ⟨150, by norm_num⟩
  · rw [min_eq_right h, max_eq_right (by norm_num : (15 : ℚ) ≤ 25)]
    exact ⟨250, by norm_num⟩

lemma compound_life_maps_agree (c : String) :
    compound_life_map_gen c = compound_life_map_tp c := by
  unfold compound_life_map_gen compound_life_map_tp compounds
  split_ifs <;> rfl

lemma wear_severity_maps_agree (w : String) :
    wear_severity_map_gen w = wear_severity_map_tp w :=
  rfl

lemma dictGet_dictSet_ne (d : PyDict) (k k0 : String) (v : PyVal)
    (h : k0 ≠ k) : dictGet (dictSet d k v) k0 = dictGet d k0 := by
  have hne : ¬(k = k0) := fun e => h e.symm
  induction d with
  | nil => simp [dictSet, dictGet, hne]
  | cons hd tl ih =>
    obtain ⟨a, w⟩ := hd
    by_cases hk : a = k
    · simp [dictSet, dictGet, hk, hne]
    · simp [dictSet, dictGet, hk, ih]

lemma dictGet_eq_none_iff (d : PyDict) (k : String) :
    dictGet d k = none ↔ k ∉ dictKeys d := by
  induction d with
  | nil => simp [dictGet, dictKeys]
  | cons hd tl ih =>
    obtain ⟨a, w⟩ := hd
    by_cases hk : a = k
    · subst hk
      simp [dictGet, dictKeys]
    · have hk0 : k ≠ a := fun e => hk e.symm
      simp [dictGet, dictKeys, hk, hk0] at ih ⊢
      exact ih

lemma dictKeys_dictSet_notMem (d : PyDict) (k : String) (v : PyVal)
    (h : k ∉ dictKeys d) : dictKeys (dictSet d k v) = dictKeys d ++ [k] := by
  induction d with
  | nil => simp [dictSet, dictKeys]
  | cons hd tl ih =>
    obtain ⟨a, w⟩ := hd
    rw [dictKeys, List.map_cons] at h
    simp only [List.mem_cons, not_or] at h
    by_cases hk : a = k
    · exact absurd hk.symm h.1
    · rw [dictSet, if_neg hk, dictKeys, List.map_cons]
      rw [dictKeys, List.map_cons, List.cons_append]
      congr 1
      exact ih h.2

/-- Claim C1: for every complete tire state with sidewall deformation, the
strategy rule engine returns PIT_NOW, whatever the values of all the other
fields. -/
theorem deformation_forces_pit_now (compound : String)
    (lap_num expected_life : ℤ) (wear_pattern : String) (pressure : ℚ)
    (graining : Bool) (tyre_temp track_temp opt_temp_min opt_temp_max : ℤ) :
    determine_strategy compound lap_num expected_life wear_pattern true
      pressure graining tyre_temp track_temp opt_temp_min opt_temp_max =
      "PIT_NOW" := by
  simp [determine_strategy]

/-- Claim C2 (code evaluation): on fixture (a) of `generate_edge_cases`
the rule engine computes PUSH (rule 9 fires: 88 °C lies in the
intermediate compound's optimal range 85-95, the pressure 19.5 is in
[19, 21.5], the lap percentage 3/15 is below 0.60, the wear is even and
there is no graining), while the fixture row stores the hard-coded label
MONITOR — the engine contradicts the repository's own curated edge case. -/
theorem fixture_a_engine_returns_push :
    edge_cases.get? 0 = some edge_record_a ∧
      edge_record_a.strategy = "MONITOR" ∧
      strategy_of edge_record_a.toTireState = some "PUSH" := by
  refine ⟨rfl, rfl, ?_⟩
  with_unfolding_all rfl

/-- Claim C3 (counterexample): invoking the rule engine on a record whose
wear pattern lies outside the declared enum raises nothing — it silently
produces the default label MONITOR, so no `ConfigurationError` protects
the safety-critical rules. -/
theorem unknown_wear_pattern_silently_defaults :
    strategy_of ⟨"soft", 1, "garbage", false, 20, false, 100, 30⟩ =
      some "MONITOR" := by
  with_unfolding_all rfl

/-- Claim C3 (amended): the rule engine performs no validation of its own —
its invocation fails exactly when the registry lookup of the compound
fails (a plain `KeyError`), regardless of the wear pattern, and the
derived feature computer maps an out-of-enum wear pattern to a missing
value instead of raising. -/
theorem engine_fails_only_on_unknown_compound :
    (∀ t : TireState, (strategy_of t).isSome = (compounds t.compound).isSome) ∧
      (add_derived_features garbage_wear_record).wear_severity = none := by
  refine ⟨fun t => ?_, rfl⟩
  unfold strategy_of
  cases compounds t.compound <;> rfl

/-- Claim C4: a record satisfying both the rule-4 guard and the rule-9
guard is classified PIT_NOW.  The two guards are mutually exclusive
(rule 4 needs `wear_pattern = "uneven"` and `wear_percentage > 0.80`,
rule 9 needs `wear_pattern = "even"` and `wear_percentage < 0.60`), so
the left disjunct always holds and the claim holds vacuously. -/
theorem rule4_and_rule9_give_pit_now (compound : String)
    (lap_num expected_life : ℤ) (wear_pattern : String) (deformation : Bool)
    (pressure : ℚ) (graining : Bool)
    (tyre_temp track_temp opt_temp_min opt_temp_max : ℤ) :
    (rule4_pred wear_pattern ((lap_num : ℚ) / (expected_life : ℚ)) &&
      rule9_pred ((lap_num : ℚ) / (expected_life : ℚ)) wear_pattern
        tyre_temp opt_temp_min opt_temp_max graining pressure) = false ∨
    determine_strategy compound lap_num expected_life wear_pattern
      deformation pressure graining tyre_temp track_temp opt_temp_min
      opt_temp_max = "PIT_NOW" := by
  left
  apply Bool.eq_false_iff.mpr
  intro hb
  rw [Bool.and_eq_true] at hb
  simp only [rule4_pred, rule9_pred, decide_eq_true_eq] at hb
  exact absurd (hb.1.1 ▸ hb.2.2.1) (by decide)

/-- Claim C5: one invocation of `generate(n, seed)` re-seeds the global
random streams, so its output does not depend on the stream state the
process was in before the call — two invocations with the same `n` and
`seed` therefore produce identical record sequences. -/
theorem generate_deterministic (n seed : ℕ) (g1 g2 : Rng) :
    generate n seed g1 = generate n seed g2 :=
  rfl

/-- Claim C9: the derived feature computer is idempotent — it recomputes
every derived column from the unchanged raw columns, so re-applying it to
an already-augmented record changes nothing. -/
theorem add_derived_features_idempotent (r : Record) :
    add_derived_features (add_derived_features r) = add_derived_features r :=
  rfl

/-- Claim C6: for every complete tire state, the derived features computed
on the batch path of the generator (`_add_derived_features`) coincide with
the derived features computed on the single-record serving path
(`predict_strategy`) — same expected life, lap percentage, temperature
differential, optimality flags, wear severity and risk score. -/
theorem batch_and_serving_derived_agree (t : TireState) :
    batch_derived t = serving_derived t := by
  unfold batch_derived serving_derived add_derived_features
  simp only [compound_life_maps_agree, wear_severity_maps_agree]
  cases h1 : compound_life_map_tp t.compound <;>
    cases h2 : wear_severity_map_tp t.wear_pattern <;>
      simp [Option.bind, h1, h2]

/-- Claim C7: for every input and every state of the random stream, the
tyre pressure fabricated by the reverse-engineering inference lies in
[15.0, 25.0] and carries exactly one decimal place. -/
theorem reverse_engineer_pressure_in_range (data : VisionData)
    (lap_number : ℤ) (g : Rng) :
    15 ≤ ((reverse_engineer_meta_data data lap_number g).1).tyre_pressure ∧
      ((reverse_engineer_meta_data data lap_number g).1).tyre_pressure ≤ 25 ∧
      oneDecimal ((reverse_engineer_meta_data data lap_number g).1).tyre_pressure := by
  refine ⟨?_, ?_, ?_⟩ <;> simp only [reverse_engineer_meta_data]
  · exact clampPressure_ge _
  · exact clampPressure_le _
  · exact oneDecimal_clampPressure_pyRound1 _

/-- Claim C8: on a wear pattern outside the declared enum the
reverse-engineering inference never fails — it behaves exactly like the
default-band completion, drawing the tyre temperature from
`uniform(optimal_min, optimal_max)` (when not graining) and the tyre
pressure from `uniform(19.0, 21.5)`, with all other processing unchanged. -/
theorem reverse_engineer_unknown_pattern_default_bands (data : VisionData)
    (lap_number : ℤ) (g : Rng) (h : data.wear_pattern ∉ wear_patterns) :
    reverse_engineer_meta_data data lap_number g =
      reverse_engineer_default_bands data lap_number g := by
  simp only [wear_patterns, List.mem_cons, List.not_mem_nil, or_false,
    not_or] at h
  obtain ⟨h1, h2, h3, h4, h5⟩ := h
  simp only [reverse_engineer_meta_data, reverse_engineer_default_bands,
    h1, h2, h3, h4, h5, if_false, or_self]

theorem reverse_engineer_unknown_pattern_default_bands_witness :
    ("banana" ∉ wear_patterns) ∧
      reverse_engineer_meta_data c8_vision 5 zeroRng =
        reverse_engineer_default_bands c8_vision 5 zeroRng :=
  ⟨by decide,
    reverse_engineer_unknown_pattern_default_bands c8_vision 5 zeroRng (by decide)⟩

/-- Claim C10: the reverse-engineering inference completes the record in
place and returns it — every key outside the four written ones keeps its
original value (in particular the five visually observed fields), and the
returned dict's keys are exactly the input keys followed by `lap_number`,
`tyre_pressure`, `tyre_temperature`, `track_temperature`. -/
theorem reverse_engineer_frame (d : PyDict) (lap : ℤ) (g : Rng) (out : PyDict)
    (h : reverse_engineer_dict d lap g = some out)
    (hfree : ∀ k ∈ addedKeys, dictGet d k = none) :
    (∀ k, k ∉ addedKeys → dictGet out k = dictGet d k) ∧
      dictKeys out = dictKeys d ++ addedKeys := by
  have f1 : dictGet d "lap_number" = none := hfree _ (by simp [addedKeys])
  have f2 : dictGet d "tyre_pressure" = none := hfree _ (by simp [addedKeys])
  have f3 : dictGet d "tyre_temperature" = none := hfree _ (by simp [addedKeys])
  have f4 : dictGet d "track_temperature" = none := hfree _ (by simp [addedKeys])
  have m1 := (dictGet_eq_none_iff d "lap_number").mp f1
  have m2 := (dictGet_eq_none_iff d "tyre_pressure").mp f2
  have m3 := (dictGet_eq_none_iff d "tyre_temperature").mp f3
  have m4 := (dictGet_eq_none_iff d "track_temperature").mp f4
  unfold reverse_engineer_dict at h
  split at h
  case _ compound wear_pattern is_graining sidewall_deformation hc hw hg hs =>
    rw [Option.some.injEq] at h
    subst h
    simp only [dictUpdate, List.foldl]
    set r := reverse_engineer_meta_data
      ⟨compound, wear_pattern, sidewall_deformation, is_graining⟩ lap g with hr
    have k1 := dictKeys_dictSet_notMem d "lap_number" (.i lap) m1
    have m2a : "tyre_pressure" ∉ dictKeys (dictSet d "lap_number" (.i lap)) := by
      rw [k1]
      simp [m2]
    have k2 := dictKeys_dictSet_notMem _ "tyre_pressure" (.q r.1.tyre_pressure) m2a
    have m3a : "tyre_temperature" ∉
        dictKeys (dictSet (dictSet d "lap_number" (.i lap)) "tyre_pressure"
          (.q r.1.tyre_pressure)) := by
      rw [k2, k1]
      simp [m3]
    have k3 := dictKeys_dictSet_notMem _ "tyre_temperature" (.i r.1.tyre_temperature) m3a
    have m4a : "track_temperature" ∉
        dictKeys (dictSet (dictSet (dictSet d "lap_number" (.i lap))
          "tyre_pressure" (.q r.1.tyre_pressure)) "tyre_temperature"
          (.i r.1.tyre_temperature)) := by
      rw [k3, k2, k1]
      simp [m4]
    have k4 := dictKeys_dictSet_notMem _ "track_temperature" (.i r.1.track_temperature) m4a
    constructor
    · intro k hk
      simp only [addedKeys, List.mem_cons, List.not_mem_nil, or_false,
        not_or] at hk
      obtain ⟨n1, n2, n3, n4⟩ := hk
      rw [dictGet_dictSet_ne _ _ _ _ n4, dictGet_dictSet_ne _ _ _ _ n3,
        dictGet_dictSet_ne _ _ _ _ n2, dictGet_dictSet_ne _ _ _ _ n1]
    · rw [k4, k3, k2, k1]
      simp [addedKeys]
  case _ =>
    exact absurd h (by simp)

theorem reverse_engineer_frame_witness :
    (∀ k, k ∉ addedKeys → dictGet c10_output k = dictGet c10_input k) ∧
      dictKeys c10_output = dictKeys c10_input ++ addedKeys :=
  reverse_engineer_frame c10_input 5 zeroRng c10_output
    (by with_unfolding_all rfl) (by decide)
